import Mathlib

/-!
# League management system: season statistics engine, shallow embedding

This file embeds the season-statistics core of the league_management_system
repository (apps/leagues/algorithms and the Match/Season models) and proves
or refutes the specified properties against it.

Modelling conventions:
* Django querysets over the database are modelled as Lean lists passed in
  through the data port (the list of teams of the league, the list of match
  rows, the list of match-event rows); queryset `filter` becomes `List.filter`.
* Python floats are modelled as exact rationals; `round(x, 1)` is modelled by
  `round1` below (round to one decimal digit).
* Python runtime exceptions are modelled with the `PyErr` type and `Except`:
  several of the source functions contain misspelled names and attribute
  accesses, and the embedding reproduces the first exception such a statement
  raises, with a comment citing the offending source line.
* `list.sort(key=...)` (a stable sort by an ascending key) is modelled with
  `List.insertionSort` (a stable sort) and an order that mirrors the key tuple.
-/

/-- `round(x, 1)` of Python, modelled on rationals: round to one decimal
digit. The specification only says "rounded to one decimal", so the handling
of exact ties is the same function on both the code side and the claim side. -/
def round1 (q : ℚ) : ℚ := (round (q * 10) : ℚ) / 10

/-- Python runtime exceptions raised by the embedded code. The payload is the
name involved (the missing attribute, the unknown dictionary key, the message
of the ValueError, the unresolvable query field). -/
inductive PyErr where
  | nameError (n : String)
  | attributeError (n : String)
  | keyError (n : String)
  | valueError (msg : String)
  | fieldError (n : String)
  deriving DecidableEq, Repr

/-! ## Data model (apps/leagues/models, apps/matches/models)

The Django model classes are embedded as plain structures carrying the fields
the statistics engines read. -/

/-- League scoring defaults (apps/leagues/models/league.py, lines 24-26). -/
structure League where
  points_per_win : Int := 3
  points_per_draw : Int := 1
  points_per_loss : Int := 0
  deriving DecidableEq, Repr

/-- Season rules (apps/leagues/models/season.py): nullable per-category
overrides of the league defaults and the configured tie-breaker fields. -/
structure Season where
  league : League
  points_per_win : Option Int := none
  points_per_draw : Option Int := none
  points_per_loss : Option Int := none
  primary_tie_breaker : String := "goal_difference"
  secondary_tie_breaker : String := "goals_for"
  deriving DecidableEq, Repr

/-- season.py lines 190-193: season override if it is not None, else the
league default. -/
def Season.actual_points_per_win (s : Season) : Int :=
  match s.points_per_win with
  | some v => v
  | none => s.league.points_per_win

/-- season.py lines 195-198. -/
def Season.actual_points_per_draw (s : Season) : Int :=
  match s.points_per_draw with
  | some v => v
  | none => s.league.points_per_draw

/-- season.py lines 200-203. -/
def Season.actual_points_per_loss (s : Season) : Int :=
  match s.points_per_loss with
  | some v => v
  | none => s.league.points_per_loss

/-- season.py lines 286-291: the primary tie breaker, then the secondary when
it is set (non-empty string) and differs from the primary. -/
def Season.get_tie_breaker_rules (s : Season) : List String :=
  if s.secondary_tie_breaker ≠ "" ∧ s.secondary_tie_breaker ≠ s.primary_tie_breaker then
    [s.primary_tie_breaker, s.secondary_tie_breaker]
  else
    [s.primary_tie_breaker]

/-- A team row (apps/leagues/models/team.py): the engines read id and name. -/
structure Team where
  id : Nat
  name : String
  deriving DecidableEq, Repr

/-- A match row (apps/matches/models/match.py). `match_date` is a day number
and `season_start_date` is passed separately where needed. `match_week` is a
nullable integer column. -/
structure Match where
  season_id : Nat
  home_team_id : Nat
  away_team_id : Nat
  match_date : Int
  match_week : Option Int := none
  home_score : Nat := 0
  away_score : Nat := 0
  status : String := "scheduled"
  home_clean_sheet : Bool := false
  away_clean_sheet : Bool := false
  venue : String := ""
  deriving DecidableEq, Repr

/-- A match-event row (apps/matches/models/event.py), with the player columns
the leaderboard queries select through the foreign keys. -/
structure MatchEvent where
  season_id : Nat
  player_id : Nat
  player_first_name : String
  player_last_name : String
  player_team_name : String
  event_type : String
  is_own_goal : Bool := false
  deriving DecidableEq, Repr

/-! ## Match.save (apps/matches/models/match.py, lines 151-162) -/

/-- match.py lines 151-162. On save, a completed match has both clean-sheet
flags recomputed from the current scores, and a falsy `match_week` (None or 0,
by Python truthiness) is replaced by `max(1, days_since_season_start // 7 + 1)`
(Python floor division). -/
def Match.save (season_start_date : Int) (m : Match) : Match :=
  let m1 :=
    if m.status == "completed" then
      { m with home_clean_sheet := m.away_score == 0,
               away_clean_sheet := m.home_score == 0 }
    else m
  if m1.match_week.getD 0 == 0 then
    { m1 with match_week := some (max 1 (Int.fdiv (m1.match_date - season_start_date) 7 + 1)) }
  else m1

/-! ## Clean-sheet engine (apps/leagues/algorithms/clean_sheet.py) -/

/-- Result record of clean_sheet.py lines 12-19. -/
structure CleanSheetStats where
  team_id : Nat
  team_name : String
  clean_sheets : Nat := 0
  matches_played : Nat := 0
  clean_sheet_percentage : ℚ := 0
  deriving DecidableEq, Repr

/-- The ascending order on the key `(-x.clean_sheets, -x.clean_sheet_percentage)`
of the sort at clean_sheet.py line 85: clean sheets descending, then
percentage descending. -/
def cleanSheetOrder (a b : CleanSheetStats) : Prop :=
  b.clean_sheets < a.clean_sheets ∨
    (a.clean_sheets = b.clean_sheets ∧ b.clean_sheet_percentage ≤ a.clean_sheet_percentage)

instance : DecidableRel cleanSheetOrder := fun a b => by
  unfold cleanSheetOrder; infer_instance

/-- clean_sheet.py lines 39-87. For every team of the league: the completed
home matches and completed away matches of the season, the clean sheets read
from the stored match flags, the percentage (0.0 when no matches, else
rounded to one decimal), then a stable sort by clean sheets descending and
percentage descending. -/
def calculate_clean_sheets (teams : List Team) (db : List Match) (season_id : Nat) :
    List CleanSheetStats :=
  let clean_sheet_stats := teams.map (fun team =>
    let home_matches := db.filter (fun m =>
      m.season_id == season_id && m.home_team_id == team.id && m.status == "completed")
    let away_matches := db.filter (fun m =>
      m.season_id == season_id && m.away_team_id == team.id && m.status == "completed")
    let home_clean_sheets := (home_matches.filter (fun m => m.home_clean_sheet)).length
    let away_clean_sheets := (away_matches.filter (fun m => m.away_clean_sheet)).length
    let total_clean_sheets := home_clean_sheets + away_clean_sheets
    let total_matches := home_matches.length + away_matches.length
    let clean_sheet_percentage : ℚ :=
      if total_matches > 0 then round1 (((total_clean_sheets : ℚ) / (total_matches : ℚ)) * 100)
      else 0
    { team_id := team.id
      team_name := team.name
      clean_sheets := total_clean_sheets
      matches_played := total_matches
      clean_sheet_percentage := clean_sheet_percentage })
  clean_sheet_stats.insertionSort cleanSheetOrder

/-- clean_sheet.py lines 149-159. Sets the two flags from the scores on the
in-memory object, then persists through `save(update_fields=[home_clean_sheet,
away_clean_sheet])`: only the two named columns of the saved object are
written back; every other stored column keeps the value of the existing row. -/
def update_match_clean_sheet (season_start_date : Int) (dbRow : Match) : Match :=
  let m := { dbRow with home_clean_sheet := dbRow.away_score == 0,
                        away_clean_sheet := dbRow.home_score == 0 }
  let saved := Match.save season_start_date m
  { dbRow with home_clean_sheet := saved.home_clean_sheet,
               away_clean_sheet := saved.away_clean_sheet }

/-! ## Standings engine (apps/leagues/algorithms/standings.py)

The source file is unrunnable as written: line 105,
`home_standing.from.append("W")`, uses the reserved word `from` as an
attribute, so the module does not even parse. The embedding below models the
function bodies statement by statement as if they had parsed, and reproduces
the first exception each one raises at run time. -/

/-- Accumulator record of standings.py lines 13-32. The init hook that should
replace `form = None` by an empty list is misspelled `__post__init__` (the
dataclass hook is `__post_init__`), so it never runs and `form` stays None;
the field is therefore an `Option`, defaulting to `none`. Note the field
`goal_for` (singular), which the sort key later misspells as `goals_for`. -/
structure TeamStanding where
  team_id : Nat
  team_name : String
  matches_played : Nat := 0
  wins : Nat := 0
  draws : Nat := 0
  losses : Nat := 0
  goal_for : Nat := 0
  goals_against : Nat := 0
  goal_difference : Int := 0
  points : Int := 0
  form : Option (List String) := none
  deriving DecidableEq, Repr

/-- Python dict subscript `standings_map[k]`: the value, or KeyError. -/
def standingsLookup (standings_map : List (Nat × TeamStanding)) (k : Nat) :
    Except PyErr TeamStanding :=
  match standings_map.find? (fun p => p.1 == k) with
  | some p => .ok p.2
  | none => .error (.keyError (toString k))

/-- standings.py lines 82-127. Line 86 binds the misspelled local
`home_standig`; line 87 binds `away_standing`; line 90 then reads the name
`home_standing`, which is not bound anywhere in the function, so the first
statement after the two lookups raises NameError and no accumulator is ever
updated. (Further down the body: the draw branch line 118 reads the
nonexistent attribute `draw` on the misspelled name, lines 120-121 add
`actual_points_per_draw` to the home side twice and to the away side never,
no branch adds `actual_points_per_loss`, and the home-win branch appends the
loss letter to the home form.) -/
def _process_match_result (mt : Match) (standings_map : List (Nat × TeamStanding)) :
    Except PyErr (List (Nat × TeamStanding)) := do
  let _home_standig ← standingsLookup standings_map mt.home_team_id
  let _away_standing ← standingsLookup standings_map mt.away_team_id
  .error (.nameError "home_standing")

/-- standings.py lines 39-80. One zero-valued `TeamStanding` per league team
(with `form` left as None, see `TeamStanding`), then a fold of
`_process_match_result` over the completed matches of the season, then
`goal_difference` is filled in, then
`sort(key=lambda x: (-x.points, -x.goal_difference, -x.goals_for, x.team_name))`:
the key reads `x.goals_for` but the dataclass field is `goal_for`, so
computing the key raises AttributeError for every element; the key tuple is
hardcoded and never consults `Season.get_tie_breaker_rules`. -/
def calculate_standings (teams : List Team) (db : List Match) (season_id : Nat) :
    Except PyErr (List TeamStanding) := do
  let standings_map : List (Nat × TeamStanding) :=
    teams.map (fun team => (team.id, { team_id := team.id, team_name := team.name }))
  let completed := db.filter (fun m => m.season_id == season_id && m.status == "completed")
  let standings_map ← completed.foldlM (fun acc mt => _process_match_result mt acc) standings_map
  let standings := standings_map.map (fun p =>
    { p.2 with goal_difference := (p.2.goal_for : Int) - (p.2.goals_against : Int) })
  match standings with
  | [] => .ok []
  | _ :: _ => .error (.attributeError "goals_for")

/-! ## Top-performer engine (apps/leagues/algorithms/top_scorers.py) -/

/-- Result record of top_scorers.py lines 12-22 (never successfully
constructed by `get_top_scorers`, see below). -/
structure PlayerStats where
  player_id : Nat
  player_name : String
  team_name : String
  goals : Nat := 0
  assists : Nat := 0
  matches_played : Nat := 0
  deriving DecidableEq, Repr

/-- A value held in a queryset row dictionary. -/
inductive PyVal where
  | i (n : Int)
  | s (v : String)
  deriving DecidableEq, Repr

/-- One row of
`values("player_id", "player__first_name", "player__last_name",
"player__team__name").annotate(total_goals=Count("id"))`. -/
structure ScorerRow where
  player_id : Nat
  player__first_name : String
  player__last_name : String
  player__team__name : String
  total_goals : Nat
  deriving DecidableEq, Repr

/-- Dictionary access on a scorer row: exactly the five keys produced by the
values/annotate query exist. -/
def ScorerRow.get (r : ScorerRow) (key : String) : Option PyVal :=
  if key == "player_id" then some (.i r.player_id)
  else if key == "player__first_name" then some (.s r.player__first_name)
  else if key == "player__last_name" then some (.s r.player__last_name)
  else if key == "player__team__name" then some (.s r.player__team__name)
  else if key == "total_goals" then some (.i r.total_goals)
  else none

/-- The grouping key of the values() clause. -/
def scorerKey (e : MatchEvent) : Nat × String × String × String :=
  (e.player_id, e.player_first_name, e.player_last_name, e.player_team_name)

/-- `values(...).annotate(total_goals=Count("id"))`: one row per distinct key,
counting the events with that key. -/
def groupGoalsByPlayer (events : List MatchEvent) : List ScorerRow :=
  ((events.map scorerKey).eraseDups).map (fun k =>
    { player_id := k.1
      player__first_name := k.2.1
      player__last_name := k.2.2.1
      player__team__name := k.2.2.2
      total_goals := (events.filter (fun e => scorerKey e == k)).length })

/-- Queryset slicing `qs[:limit]`: a negative bound raises
`ValueError("Negative indexing is not supported.")`; otherwise the first
`limit` rows. -/
def pySlice {α : Type} (l : List α) (limit : Int) : Except PyErr (List α) :=
  if limit < 0 then .error (.valueError "Negative indexing is not supported.")
  else .ok (l.take limit.toNat)

/-- top_scorers.py lines 56-64, the loop converting rows to `PlayerStats`.
Line 59 reads `item["player-id"]`, but the row keys are `player_id`,
`player__first_name`, `player__last_name`, `player__team__name` and
`total_goals`, so the first iteration raises KeyError; even were the key
spelled right, line 64 appends to the unbound name `top_scores` (the list
built is named `top_scorers`), a NameError. With no rows the loop body never
runs and the empty `top_scorers` list is returned. -/
def scorerRowsToStats : List ScorerRow → Except PyErr (List PlayerStats)
  | [] => .ok []
  | item :: _rest =>
    match item.get "player-id" with
    | none => .error (.keyError "player-id")
    | some _ => .error (.nameError "top_scores")

/-- top_scorers.py lines 32-66. Filters the season events of type goal or
penalty_goal, excludes own goals, groups by player, orders by count
descending (ties in database order: the query orders by `-total_goals` only),
slices to `limit`, then runs the (broken) conversion loop. -/
def get_top_scorers (events : List MatchEvent) (season_id : Nat) (limit : Int) :
    Except PyErr (List PlayerStats) := do
  let goal_events := events.filter (fun e =>
    e.season_id == season_id &&
      (e.event_type == "goal" || e.event_type == "penalty_goal") && !e.is_own_goal)
  let goals_by_player := groupGoalsByPlayer goal_events
  let ordered := goals_by_player.insertionSort (fun a b => b.total_goals ≤ a.total_goals)
  let rows ← pySlice ordered limit
  scorerRowsToStats rows

/-- top_scorers.py lines 68-101. Line 85 selects `player__team_name`: the
Player model has no field `team_name` (the team name is reached through
`player__team__name`), so building the values() clause raises FieldError
before the limit or the data are ever looked at. -/
def get_top_assists (events : List MatchEvent) (season_id : Nat) (_limit : Int) :
    Except PyErr (List PlayerStats) :=
  let _assist_events := events.filter (fun e =>
    e.season_id == season_id && e.event_type == "assist")
  .error (.fieldError "player__team_name")

/-! ## Disciplinary engine (apps/leagues/algorithms/discplinary.py) -/

/-- Result record of discplinary.py lines 12-20 as the constructor calls
expect it (never successfully constructed: the dataclass itself declares
`yellow_card` singular, and its `total_cards =int = str` line is a chained
class-attribute assignment, not a field). -/
structure DisciplinaryStats where
  player_id : Nat
  player_name : String
  team_name : String
  yellow_cards : Nat := 0
  red_cards : Nat := 0
  total_cards : Nat := 0
  suspension_games : Nat := 0
  deriving DecidableEq, Repr

/-- Result record of discplinary.py lines 22-30. -/
structure TeamDisciplinaryStats where
  team_id : Nat
  team_name : String
  yellow_cards : Nat := 0
  red_cards : Nat := 0
  total_cards : Nat := 0
  fair_play_rating : ℚ := 10
  deriving DecidableEq, Repr

/-- discplinary.py lines 40-92. Lines 48-51 build the card-event queryset
(lazily, raising nothing); line 54 then evaluates `Player.object.filter(...)`:
the Player class has no attribute `object` (the default manager is `objects`),
so attribute lookup raises AttributeError before any player is examined.
(Further down: line 78 calls the unbound name `stats_DisciplinaryStats`, and
the keyword arguments do not match the dataclass fields.) -/
def calculate_disciplinary_stats (events : List MatchEvent) (season_id : Nat) :
    Except PyErr (List DisciplinaryStats) :=
  let _card_events := events.filter (fun e =>
    e.season_id == season_id &&
      (e.event_type == "yellow_card" || e.event_type == "red_card" ||
        e.event_type == "second_yellow"))
  .error (.attributeError "object")

/-- discplinary.py lines 94-134. Line 99 evaluates `Team.object.filter(...)`:
the Team class has no attribute `object`, so the function raises
AttributeError before any team is processed. (Further down: line 113 stores
the unbound method `count` instead of calling it, and line 117 calls the
misspelled `self._calculate_fair_play_ratting`.) -/
def calculate_team_disciplinary_stats (_teams : List Team) (_events : List MatchEvent)
    (_season_id : Nat) : Except PyErr (List TeamDisciplinaryStats) :=
  .error (.attributeError "object")

/-- discplinary.py lines 136-150: one game per red card plus one game per
five yellow cards (floor division). -/
def _calculate_suspension_games (yellow_cards red_cards : Nat) : Nat :=
  red_cards + yellow_cards / 5

/-- discplinary.py lines 176-190: 10.0 for a team with no completed matches;
otherwise `max(0.0, 10.0 - penalty / (matches * 5) * 10.0)` rounded to one
decimal, with `penalty = yellow * 1.0 + red * 3.0`. -/
def _calculate_fair_play_rating (yellow_cards red_cards total_matches : Nat) : ℚ :=
  if total_matches == 0 then 10
  else
    let yellow_penalty : ℚ := (yellow_cards : ℚ) * 1
    let red_penalty : ℚ := (red_cards : ℚ) * 3
    let total_penalty : ℚ := yellow_penalty + red_penalty
    let max_expected_penalty : ℚ := (total_matches : ℚ) * 5
    round1 (max 0 (10 - (total_penalty / max_expected_penalty) * 10))

/-! ## Claim-side definitions -/

/-- Claim-side count: completed matches of the season in which the given team
conceded zero goals (home team with `awayScore == 0`, or away team with
`homeScore == 0`). -/
def concededZeroCount (db : List Match) (season_id team_id : Nat) : Nat :=
  db.countP (fun m => m.season_id == season_id && m.status == "completed" &&
    ((m.home_team_id == team_id && m.away_score == 0) ||
     (m.away_team_id == team_id && m.home_score == 0)))

/-- Claim-side count: completed matches of the season the team took part in. -/
def completedMatchCount (db : List Match) (season_id team_id : Nat) : Nat :=
  db.countP (fun m => m.season_id == season_id && m.status == "completed" &&
    (m.home_team_id == team_id || m.away_team_id == team_id))

/-! ## Helper lemmas -/

/-- Two disjoint boolean counts over one list merge into the count of a
combined predicate, given the pointwise accounting identity. -/
theorem countP_add_countP {α : Type} {p q r : α → Bool} (l : List α)
    (h : ∀ a ∈ l, (p a).toNat + (q a).toNat = (r a).toNat) :
    l.countP p + l.countP q = l.countP r := by
  induction l with
  | nil => simp
  | cons a t ih =>
    have ha := h a (List.mem_cons_self a t)
    have ht := ih (fun b hb => h b (List.mem_cons_of_mem a hb))
    simp only [List.countP_cons]
    cases hp : p a <;> cases hq : q a <;> cases hr : r a <;>
      simp [hp, hq, hr] at ha ⊢ <;> omega

instance : IsTotal CleanSheetStats cleanSheetOrder := by
  constructor
  intro a b
  unfold cleanSheetOrder
  rcases Nat.lt_trichotomy a.clean_sheets b.clean_sheets with h | h | h
  · exact Or.inr (Or.inl h)
  · rcases le_total a.clean_sheet_percentage b.clean_sheet_percentage with hp | hp
    · exact Or.inr (Or.inr ⟨h.symm, hp⟩)
    · exact Or.inl (Or.inr ⟨h, hp⟩)
  · exact Or.inl (Or.inl h)

instance : IsTrans CleanSheetStats cleanSheetOrder := by
  constructor
  intro a b c hab hbc
  unfold cleanSheetOrder at *
  rcases hab with h1 | ⟨e1, p1⟩ <;> rcases hbc with h2 | ⟨e2, p2⟩
  · exact Or.inl (by omega)
  · exact Or.inl (by omega)
  · exact Or.inl (by omega)
  · exact Or.inr ⟨by omega, le_trans p2 p1⟩

/-! ## Claim theorems -/

/-- C1. The claim says every completed match folded into the standings awards
the effective points per win to the winner, the effective points per loss to
the loser, and the effective points per draw to each side of a tie. The code
does no such thing: on a league of two teams with one completed 2-1 match,
`calculate_standings` raises NameError on the unbound name `home_standing`
before any accumulator is touched, so no points are ever awarded. -/
theorem C1_standings_points_raises_name_error :
    calculate_standings [⟨1, "Arsenal"⟩, ⟨2, "Burnley"⟩]
      [{ season_id := 1, home_team_id := 1, away_team_id := 2, match_date := 0,
         home_score := 2, away_score := 1, status := "completed" }] 1 =
      .error (.nameError "home_standing") := rfl

/-- C2. The claim says `calculate_standings` returns the teams sorted by
points, then the tie-break sequence configured on the season, then name. The
code hardcodes the key tuple `(-points, -goal_difference, -goals_for, name)`
without ever consulting `Season.get_tie_breaker_rules`, and the key reads the
nonexistent attribute `goals_for` (the dataclass field is `goal_for`), so even
on a one-team season with no matches the sort raises AttributeError and no
table is returned. -/
theorem C2_standings_sort_raises_attribute_error :
    calculate_standings [⟨1, "Arsenal"⟩] [] 1 = .error (.attributeError "goals_for") := rfl

/-- C7. The claim says each completed match appends one result letter to each
participating team form, kept chronological and truncated to five. The code
crashes (NameError on `home_standing`) on the first completed match — here a
0-0 draw — before any form entry is appended; moreover `form` is still None
at that point because the dataclass init hook is misspelled `__post__init__`,
and the home-win branch would append the home letter through the unparsable
`home_standing.from` and the loss letter to the home side instead of the away
side. -/
theorem C7_standings_form_raises_name_error :
    calculate_standings [⟨1, "Leeds"⟩, ⟨2, "York"⟩]
      [{ season_id := 1, home_team_id := 1, away_team_id := 2, match_date := 0,
         home_score := 0, away_score := 0, status := "completed" }] 1 =
      .error (.nameError "home_standing") := rfl

/-- C4. The claim says `get_top_scorers` returns the counted, sorted,
truncated scorer leaderboard. On a season with a single goal event and limit
10, the conversion loop reads the misspelled row key `player-id` (the row has
`player_id`) and raises KeyError, so no leaderboard is ever produced for a
season with at least one qualifying event. -/
theorem C4_top_scorers_raises_key_error :
    get_top_scorers
      [{ season_id := 1, player_id := 9, player_first_name := "Alan",
         player_last_name := "Shearer", player_team_name := "Newcastle",
         event_type := "goal" }] 1 10 =
      .error (.keyError "player-id") := rfl

/-- C5. The claim says every team of a season gets a fair-play rating computed
by the documented formula. `calculate_team_disciplinary_stats` raises
AttributeError on `Team.object` (the manager is `objects`) before any team is
processed — here a one-team season with one yellow card — so no rating is ever
produced, even though the helper `_calculate_fair_play_rating` does implement
the claimed formula (see the lemmas below). -/
theorem C5_team_disciplinary_raises_attribute_error :
    calculate_team_disciplinary_stats [⟨3, "Leeds"⟩]
      [{ season_id := 1, player_id := 4, player_first_name := "Roy",
         player_last_name := "Keane", player_team_name := "Leeds",
         event_type := "yellow_card" }] 1 =
      .error (.attributeError "object") := rfl

/-- C6. The claim says every carded player of a season gets yellow/red counts,
total cards and suspension games, sorted by totals. The code raises
AttributeError on `Player.object` (the manager is `objects`) right after
building the card-event queryset — here a season with one yellow card — so no
player statistics are ever produced. -/
theorem C6_player_disciplinary_raises_attribute_error :
    calculate_disciplinary_stats
      [{ season_id := 1, player_id := 4, player_first_name := "Roy",
         player_last_name := "Keane", player_team_name := "Leeds",
         event_type := "yellow_card" }] 1 =
      .error (.attributeError "object") := rfl

/-- C8 counterexample. The claim says a non-positive limit fails with an
InvalidArgument error. Limit 0 is non-positive, yet on a season with a
qualifying goal event `get_top_scorers` succeeds and returns the empty
leaderboard: the empty slice never evaluates the broken conversion loop and
no argument check exists anywhere in the class. -/
theorem C8_zero_limit_succeeds :
    get_top_scorers
      [{ season_id := 1, player_id := 10, player_first_name := "Erling",
         player_last_name := "Haaland", player_team_name := "City",
         event_type := "goal" }] 1 0 = .ok [] := rfl

/-- C8 amended. What the code actually does with the limit: a negative limit
makes `get_top_scorers` fail with the queryset slicing ValueError (there is no
InvalidArgument check); limit 0 succeeds with an empty list; and
`get_top_assists` fails for every limit with a FieldError on the invalid query
field `player__team_name`, before the limit is ever examined. -/
theorem C8_limit_behaviour (events : List MatchEvent) (season_id : Nat) (limit : Int) :
    (limit < 0 →
      get_top_scorers events season_id limit =
        .error (.valueError "Negative indexing is not supported.")) ∧
    get_top_scorers events season_id 0 = .ok [] ∧
    get_top_assists events season_id limit = .error (.fieldError "player__team_name") := by
  refine ⟨fun hneg => ?_, ?_, rfl⟩
  · simp only [get_top_scorers, pySlice, if_pos hneg]
    rfl
  · rfl

/-- C8 witness: the amended behaviour at concrete inputs, limit -1. -/
theorem C8_limit_behaviour_witness :
    get_top_scorers [] 1 (-1) =
      .error (.valueError "Negative indexing is not supported.") ∧
    get_top_assists [] 1 (-1) = .error (.fieldError "player__team_name") :=
  ⟨(C8_limit_behaviour [] 1 (-1)).1 (by decide), (C8_limit_behaviour [] 1 (-1)).2.2⟩

/-- C9. After `update_match_clean_sheet`, the home flag is set exactly when
the away score is zero and the away flag exactly when the home score is zero
(so a completed 0-0 match gets both flags), and every stored column of the
match other than the two flags keeps its value. -/
theorem C9_update_match_clean_sheet_correct (season_start_date : Int) (m : Match) :
    (update_match_clean_sheet season_start_date m).home_clean_sheet = (m.away_score == 0) ∧
    (update_match_clean_sheet season_start_date m).away_clean_sheet = (m.home_score == 0) ∧
    (update_match_clean_sheet season_start_date m).season_id = m.season_id ∧
    (update_match_clean_sheet season_start_date m).home_team_id = m.home_team_id ∧
    (update_match_clean_sheet season_start_date m).away_team_id = m.away_team_id ∧
    (update_match_clean_sheet season_start_date m).match_date = m.match_date ∧
    (update_match_clean_sheet season_start_date m).match_week = m.match_week ∧
    (update_match_clean_sheet season_start_date m).home_score = m.home_score ∧
    (update_match_clean_sheet season_start_date m).away_score = m.away_score ∧
    (update_match_clean_sheet season_start_date m).status = m.status ∧
    (update_match_clean_sheet season_start_date m).venue = m.venue := by
  simp only [update_match_clean_sheet, Match.save]
  split <;> split <;> simp

/-- C10. Saving a match whose status is completed recomputes both clean-sheet
flags from the current scores (and leaves the scores and status themselves
unchanged), so `Match.save` keeps the stored flags consistent with the scores
of any completed match. -/
theorem C10_save_completed_recomputes_flags (season_start_date : Int) (m : Match)
    (h : m.status = "completed") :
    (Match.save season_start_date m).home_clean_sheet = (m.away_score == 0) ∧
    (Match.save season_start_date m).away_clean_sheet = (m.home_score == 0) ∧
    (Match.save season_start_date m).home_score = m.home_score ∧
    (Match.save season_start_date m).away_score = m.away_score ∧
    (Match.save season_start_date m).status = m.status := by
  simp [Match.save, h]
  split <;> simp

/-- A completed 0-0 match, used to instantiate the save theorem. -/
def exampleCompletedDraw : Match :=
  { season_id := 1, home_team_id := 1, away_team_id := 2, match_date := 14,
    home_score := 0, away_score := 0, status := "completed" }

/-- C10 witness: saving a completed 0-0 match turns both flags on and keeps
the scores and status. -/
theorem C10_save_completed_witness :
    (Match.save 0 exampleCompletedDraw).home_clean_sheet = true ∧
    (Match.save 0 exampleCompletedDraw).away_clean_sheet = true ∧
    (Match.save 0 exampleCompletedDraw).home_score = 0 ∧
    (Match.save 0 exampleCompletedDraw).away_score = 0 ∧
    (Match.save 0 exampleCompletedDraw).status = "completed" :=
  C10_save_completed_recomputes_flags 0 exampleCompletedDraw rfl

/-- Pointwise accounting identity for the clean-sheet count: with the flag
columns rewritten to the score tests, a match contributes to the home count or
the away count (never both, as a team cannot play itself) exactly when it
contributes to the claimed combined count. -/
theorem cs_toNat_split : ∀ (A B D z1 z2 : Bool), (B = true → D = true → False) →
    (z1 && (A && B)).toNat + (z2 && (A && D)).toNat =
      (A && ((B && z1) || (D && z2))).toNat := by decide

/-- Pointwise accounting identity for matches played: a match is a home match
or an away match of the team (never both) exactly when the team took part. -/
theorem mp_toNat_split : ∀ (A B D : Bool), (B = true → D = true → False) →
    (A && B).toNat + (A && D).toNat = (A && (B || D)).toNat := by decide

/-- C3. Under the stored-flag consistency invariant (maintained by both write
paths, `Match.save` and `update_match_clean_sheet`) and the model validation
that a team never plays itself, every entry of `calculate_clean_sheets` counts
exactly the completed matches in which the team conceded zero goals, reports
the matches played, computes the percentage as clean sheets over matches
played times 100 rounded to one decimal (0 for a team with no matches), and
the table is ordered by clean sheets descending, then percentage descending. -/
theorem C3_team_clean_sheets
    (teams : List Team) (db : List Match) (season_id : Nat)
    (hflags : ∀ m ∈ db, m.status = "completed" →
      m.home_clean_sheet = (m.away_score == 0) ∧ m.away_clean_sheet = (m.home_score == 0))
    (hneq : ∀ m ∈ db, m.home_team_id ≠ m.away_team_id) :
    (∀ s ∈ calculate_clean_sheets teams db season_id,
      s.clean_sheets = concededZeroCount db season_id s.team_id ∧
      s.matches_played = completedMatchCount db season_id s.team_id ∧
      s.clean_sheet_percentage =
        (if s.matches_played = 0 then 0
         else round1 (((s.clean_sheets : ℚ) / (s.matches_played : ℚ)) * 100))) ∧
    List.Pairwise (fun a b => b.clean_sheets < a.clean_sheets ∨
        (a.clean_sheets = b.clean_sheets ∧
          b.clean_sheet_percentage ≤ a.clean_sheet_percentage))
      (calculate_clean_sheets teams db season_id) := by
  constructor
  · intro s hs
    simp only [calculate_clean_sheets] at hs
    rw [(List.perm_insertionSort cleanSheetOrder _).mem_iff] at hs
    obtain ⟨t, ht, rfl⟩ := List.mem_map.mp hs
    refine ⟨?_, ?_, ?_⟩
    · dsimp only
      rw [← List.countP_eq_length_filter, ← List.countP_eq_length_filter,
        List.countP_filter, List.countP_filter, concededZeroCount]
      apply countP_add_countP
      intro m hm
      by_cases hc : m.status = "completed"
      · obtain ⟨h1, h2⟩ := hflags m hm hc
        have hBD : (m.home_team_id == t.id) = true → (m.away_team_id == t.id) = true → False := by
          intro b1 b2
          exact hneq m hm ((eq_of_beq b1).trans (eq_of_beq b2).symm)
        simp only [h1, h2, hc, beq_self_eq_true, Bool.and_true]
        exact cs_toNat_split _ _ _ _ _ hBD
      · have hcf : (m.status == "completed") = false := by
          rw [beq_eq_false_iff_ne]
          exact hc
        simp [hcf]
    · dsimp only
      rw [← List.countP_eq_length_filter, ← List.countP_eq_length_filter, completedMatchCount]
      apply countP_add_countP
      intro m hm
      by_cases hc : m.status = "completed"
      · have hBD : (m.home_team_id == t.id) = true → (m.away_team_id == t.id) = true → False := by
          intro b1 b2
          exact hneq m hm ((eq_of_beq b1).trans (eq_of_beq b2).symm)
        simp only [hc, beq_self_eq_true, Bool.and_true]
        exact mp_toNat_split _ _ _ hBD
      · have hcf : (m.status == "completed") = false := by
          rw [beq_eq_false_iff_ne]
          exact hc
        simp [hcf]
    · dsimp only
      split_ifs with h1 h2 h3
      · exact absurd h2 (by omega)
      · rfl
      · rfl
      · exact absurd (by omega) h3
  · simp only [calculate_clean_sheets]
    exact List.Pairwise.imp (fun {a b} h => h) (List.sorted_insertionSort cleanSheetOrder _)

/-- Two teams of one league for the clean-sheet witness. -/
def csTeams : List Team := [⟨1, "Arsenal"⟩, ⟨2, "Burnley"⟩]

/-- One completed 2-0 match with flags consistent with the scores. -/
def csMatches : List Match :=
  [{ season_id := 1, home_team_id := 1, away_team_id := 2, match_date := 3,
     home_score := 2, away_score := 0, status := "completed",
     home_clean_sheet := true, away_clean_sheet := false }]

/-- C3 witness: the clean-sheet theorem applied to a concrete two-team season
with one completed 2-0 match, hypotheses discharged by evaluation. -/
theorem C3_team_clean_sheets_witness :
    (∀ s ∈ calculate_clean_sheets csTeams csMatches 1,
      s.clean_sheets = concededZeroCount csMatches 1 s.team_id ∧
      s.matches_played = completedMatchCount csMatches 1 s.team_id ∧
      s.clean_sheet_percentage =
        (if s.matches_played = 0 then 0
         else round1 (((s.clean_sheets : ℚ) / (s.matches_played : ℚ)) * 100))) ∧
    List.Pairwise (fun a b => b.clean_sheets < a.clean_sheets ∨
        (a.clean_sheets = b.clean_sheets ∧
          b.clean_sheet_percentage ≤ a.clean_sheet_percentage))
      (calculate_clean_sheets csTeams csMatches 1) :=
  C3_team_clean_sheets csTeams csMatches 1 (by decide) (by decide)

/-! ## Properties of the fair-play helper

The pipeline above never reaches `_calculate_fair_play_rating`, but the
helper itself does implement the documented formula; these lemmas record its
boundary behaviour and bounds. -/

theorem round1_nonneg {q : ℚ} (h : 0 ≤ q) : 0 ≤ round1 q := by
  unfold round1
  have h0 : (0:ℤ) ≤ round (q * 10) := by
    rw [round_eq, Int.le_floor]
    push_cast
    linarith
  have h0q : (0:ℚ) ≤ (round (q * 10) : ℚ) := by exact_mod_cast h0
  positivity

theorem round1_le_ten {q : ℚ} (h : q ≤ 10) : round1 q ≤ 10 := by
  unfold round1
  have h100 : round (q * 10) ≤ 100 := by
    have : round (q * 10) < 101 := by
      rw [round_eq, Int.floor_lt]
      push_cast
      linarith
    omega
  rw [div_le_iff₀ (by norm_num : (0:ℚ) < 10)]
  calc (round (q * 10) : ℚ) ≤ 100 := by exact_mod_cast h100
    _ = 10 * 10 := by norm_num

/-- A team with zero completed matches rates exactly 10. -/
theorem fair_play_rating_no_matches (y r : Nat) : _calculate_fair_play_rating y r 0 = 10 := rfl

/-- The rating always lies between 0 and 10, for every input. -/
theorem fair_play_rating_bounds (y r n : Nat) :
    0 ≤ _calculate_fair_play_rating y r n ∧ _calculate_fair_play_rating y r n ≤ 10 := by
  simp only [_calculate_fair_play_rating]
  split
  · constructor <;> norm_num
  · refine ⟨round1_nonneg (le_max_left _ _), round1_le_ten (max_le (by norm_num) ?_)⟩
    have hnn : 0 ≤ (((y:ℚ) * 1 + (r:ℚ) * 3) / ((n:ℚ) * 5)) * 10 := by positivity
    linarith
